import Mathlib

/-!
# WeatherService — verification of the specified core

A shallow embedding of the core of the WeatherService repository
(`ClickHouseFuncs.go` and the user/dispatch/provider files of package
`weatherservice`), together with theorems settling the specification's
claims about it.

Modelling conventions, used throughout:

* Go's `float32` fields (temperatures, wind speed, coordinates) are carried
  as `ℚ`; the only arithmetic the code performs on them is the exact
  product `pressure * 0.75`, which is exact in `float32` for `int16`
  pressures and exact in `ℚ`. `int16`/`int64` fields are carried as `Int`.
* Go maps (`mapOfCities`, `tmpMapOfCities`, `mapOfCityWeatherForecast`) are
  association lists in insertion order, with `alookup`/`ainsert` giving a
  Go map's read/overwrite semantics.  Go iterates maps in unspecified
  order; where the code ranges over a map the embedding uses insertion
  order, and every claim proved below is insensitive to that order
  (counts, emptiness, unchanged-on-error).
* External effects (the geocoding call, the weather and forecast calls,
  ClickHouse batch prepare/send, the Postgres user lookup, the RabbitMQ
  publish) enter as oracle parameters; each embedded function also returns
  the trace the claims talk about (provider calls issued, rows committed,
  registry reads/writes).
-/

namespace WeatherService

/-- `CityType` (ClickHouseFuncs.go:21-25): a registry entry; `Lat`/`Lon`
are `float32` in the source, carried here as `ℚ`. -/
structure CityType where
  name : String
  lat  : ℚ
  lon  : ℚ
deriving DecidableEq, Repr

/-- Go association-list map lookup (`v, ok := m[k]`). -/
def alookup {β : Type} : List (String × β) → String → Option β
  | [], _ => none
  | (k', v) :: rest, k => if k' = k then some v else alookup rest k

/-- Go map assignment `m[k] = v`: overwrite the binding if the key is
present, otherwise add it. -/
def ainsert {β : Type} : List (String × β) → String → β → List (String × β)
  | [], k, v => [(k, v)]
  | (k', v') :: rest, k, v =>
    if k' = k then (k, v) :: rest else (k', v') :: ainsert rest k v

/-- Go membership test `_, ok := m[k]`. -/
def acontains {β : Type} (m : List (String × β)) (k : String) : Bool :=
  (alookup m k).isSome

/-- The in-memory city registry `mapOfCities` (ClickHouseFuncs.go:17). -/
abbrev Registry := List (String × CityType)

/-- The ways `getCoordinates` (the geocoding call) fails: transport error,
non-200 status, unreadable body, undecodable body, zero candidates. -/
inductive GeoErr where
  | transport
  | non200
  | readBody
  | decodeBody
  | noResults
deriving DecidableEq, Repr

/-- The `CityType` value `getCoordinates` hands back alongside its error:
every error path of the source returns the zero value `CityType{}`
(empty name, zero coordinates). -/
def geoValue : Except GeoErr CityType → CityType
  | .ok c => c
  | .error _ => { name := "", lat := 0, lon := 0 }

/-- The errors `addCitiesToDB` can return. -/
inductive AddCitiesErr where
  | prepareBatch
  | getCoords (name : String) (e : GeoErr)
  | sendBatch
deriving DecidableEq, Repr

/-- The loop state of `addCitiesToDB` (ClickHouseFuncs.go:132-151):
`tmpMapOfCities`, `addedCities`, the rows appended to the `cities` batch,
and the names `getCoordinates` has been called with, in order. -/
structure AddLoopState where
  tmp   : List (String × CityType)
  added : List String
  rows  : List (String × ℚ × ℚ)
  calls : List String
deriving DecidableEq, Repr

/-- The per-name loop of `addCitiesToDB` (ClickHouseFuncs.go:136-151).
For each input name it calls `getCoordinates` unconditionally; it then
checks `mapOfCities` for the *returned* `city.Name` **before** checking
the error, so a name whose resolved (or, on failure, zero-valued) name is
already registered is appended to `addedCities` and the error, if any, is
skipped over; only then is a resolution error returned.  A newly resolved
city goes into `tmpMapOfCities` and onto the batch. -/
def addCitiesLoop (geo : String → Except GeoErr CityType) (registry : Registry) :
    AddLoopState → List String → AddLoopState × Option AddCitiesErr
  | st, [] => (st, none)
  | st, cityName :: rest =>
    let res := geo cityName
    let city := geoValue res
    let st1 := { st with calls := st.calls ++ [cityName] }
    if acontains registry city.name then
      addCitiesLoop geo registry { st1 with added := st1.added ++ [city.name] } rest
    else
      match res with
      | .error e => (st1, some (.getCoords cityName e))
      | .ok _ =>
        addCitiesLoop geo registry
          { st1 with
            tmp := ainsert st1.tmp city.name city
            rows := st1.rows ++ [(city.name, city.lat, city.lon)] } rest

/-- What one call of `addCitiesToDB` returns and does: its return value,
the registry (`mapOfCities`) after the call, the geocoding calls it
issued, and the rows the batch `Send` committed to the `cities` table
(empty whenever `Send` did not run successfully). -/
structure AddCitiesResult where
  ret      : Except AddCitiesErr (List String)
  registry : Registry
  geoCalls : List String
  sentRows : List (String × ℚ × ℚ)
deriving Repr

/-- `addCitiesToDB` (ClickHouseFuncs.go:123-164).  `prepareOk`/`sendOk`
are the outcomes of `PrepareBatch` and `batch.Send`.  On any error return
the registry is untouched; only after a successful `Send` is
`tmpMapOfCities` merged into `mapOfCities` and its keys appended to the
returned list. -/
def addCitiesToDB (geo : String → Except GeoErr CityType) (registry : Registry)
    (prepareOk sendOk : Bool) (cities : List String) : AddCitiesResult :=
  if prepareOk = false then
    { ret := .error .prepareBatch, registry := registry, geoCalls := [], sentRows := [] }
  else
    match addCitiesLoop geo registry ⟨[], [], [], []⟩ cities with
    | (st, some e) =>
      { ret := .error e, registry := registry, geoCalls := st.calls, sentRows := [] }
    | (st, none) =>
      if sendOk = false then
        { ret := .error .sendBatch, registry := registry, geoCalls := st.calls,
          sentRows := [] }
      else
        { ret := .ok (st.added ++ st.tmp.map Prod.fst)
          registry := st.tmp.foldl (fun r kv => ainsert r kv.1 kv.2) registry
          geoCalls := st.calls
          sentRows := st.rows }

/-- One decoded current-weather response (`weatherAPIResp`): `Dt`, the
`Main` block (`Temp`, `FeelsLike`, `Pressure`) and the `Wind` block
(`Speed`, `Deg`), flattened. -/
structure WeatherAPIResp where
  dt        : Int
  temp      : ℚ
  feelsLike : ℚ
  pressure  : Int
  windSpeed : ℚ
  windDeg   : Int
deriving DecidableEq, Repr

/-- A row of the `weather_metrics` table, as `batch.Append` receives it in
`insertWeatherData` (ClickHouseFuncs.go:183-191). -/
structure MetricRow where
  timestamp : Int
  city      : String
  temp      : ℚ
  appTemp   : ℚ
  pressure  : Int
  windSpeed : ℚ
  windDeg   : Int
deriving DecidableEq, Repr

/-- The row `insertWeatherData` appends for one city. -/
def metricRow (cityName : String) (w : WeatherAPIResp) : MetricRow :=
  ⟨w.dt, cityName, w.temp, w.feelsLike, w.pressure, w.windSpeed, w.windDeg⟩

/-- The errors `insertWeatherData` can return. -/
inductive InsertErr where
  | prepareBatch
  | fetchWeather (name : String)
  | sendBatch
deriving DecidableEq, Repr

/-- The per-city loop of `insertWeatherData` (ClickHouseFuncs.go:175-194):
fetch the current weather for each city and append a row; the first
failing fetch aborts the loop before `Send` ever runs. -/
def insertWeatherLoop (gw : CityType → Except Unit WeatherAPIResp) :
    List (String × CityType) → Except InsertErr (List MetricRow)
  | [] => .ok []
  | (name, city) :: rest =>
    match gw city with
    | .error _ => .error (.fetchWeather name)
    | .ok w =>
      match insertWeatherLoop gw rest with
      | .error e => .error e
      | .ok rows => .ok (metricRow name w :: rows)

/-- Result of one collection tick: the returned error, if any, and the
rows `batch.Send` committed to `weather_metrics` (empty whenever `Send`
did not run successfully). -/
structure InsertResult where
  ret      : Except InsertErr Unit
  sentRows : List MetricRow
deriving Repr

/-- `insertWeatherData` (ClickHouseFuncs.go:166-201).  The snapshot of
`mapOfCities` is taken as a list of (name, city) pairs; Go iterates the
map in unspecified order, and the theorems below quantify over every
order.  Rows are only ever persisted by the single `batch.Send` at the
end, after every city's fetch has succeeded. -/
def insertWeatherData (gw : CityType → Except Unit WeatherAPIResp)
    (prepareOk sendOk : Bool) (cities : List (String × CityType)) : InsertResult :=
  if prepareOk = false then ⟨.error .prepareBatch, []⟩
  else
    match insertWeatherLoop gw cities with
    | .error e => ⟨.error e, []⟩
    | .ok rows => if sendOk = false then ⟨.error .sendBatch, []⟩ else ⟨.ok (), rows⟩

/-- A JSON value: the wire form of a `NotificationTask` is modelled at the
level of the JSON document, not its character stream. -/
inductive JVal where
  | jnull
  | jbool (b : Bool)
  | jnum (n : ℚ)
  | jstr (s : String)
  | jarr (elems : List JVal)
  | jobj (fields : List (String × JVal))
deriving Repr

/-- `EmailTask` (rabbit file, lines 21-27).  Fields keep the source's
exported names, except that Go's `Type` (JSON tag `"type"`) is written
`TypeTag` because `Type` is reserved in Lean; `Meta` is a
`map[string]interface{}` with `json:"meta,omitempty"`, modelled as `none`
for a nil map and `some kvs` for a non-nil map with the given
(duplicate-free) bindings. -/
structure EmailTask where
  To      : String
  Subject : String
  Body    : String
  TypeTag : String
  Meta    : Option (List (String × JVal))
deriving Repr

/-- `json.Marshal` of an `EmailTask`: the three unconditional string
fields, then `type` unless it is the empty string (`omitempty`), then
`meta` unless the map is nil **or empty** (Go's `omitempty` drops an
empty map as well as a nil one). -/
def encodeEmailTask (t : EmailTask) : JVal :=
  .jobj ([("to", .jstr t.To), ("subject", .jstr t.Subject), ("body", .jstr t.Body)]
    ++ (if t.TypeTag = "" then [] else [("type", .jstr t.TypeTag)])
    ++ (match t.Meta with
        | none => []
        | some m => if m.isEmpty then [] else [("meta", .jobj m)]))

/-- Decoding one string field of the task object: a missing field (or a
JSON null) leaves the struct's zero value `""`; a non-string value is a
decode error. -/
def jStrField (fields : List (String × JVal)) (k : String) : Except Unit String :=
  match alookup fields k with
  | none => .ok ""
  | some (.jstr s) => .ok s
  | some .jnull => .ok ""
  | some _ => .error ()

/-- Decoding the `meta` field: missing or null gives the nil map, an
object gives a non-nil map with its bindings, anything else is a decode
error. -/
def jMetaField (fields : List (String × JVal)) :
    Except Unit (Option (List (String × JVal))) :=
  match alookup fields "meta" with
  | none => .ok none
  | some .jnull => .ok none
  | some (.jobj m) => .ok (some m)
  | some _ => .error ()

/-- `json.Unmarshal` of the wire document back into an `EmailTask` (the
email consumer's side of the wire contract). -/
def decodeEmailTask : JVal → Except Unit EmailTask
  | .jobj fields =>
    match jStrField fields "to", jStrField fields "subject", jStrField fields "body",
        jStrField fields "type", jMetaField fields with
    | .ok t, .ok s, .ok b, .ok ty, .ok m => .ok ⟨t, s, b, ty, m⟩
    | _, _, _, _, _ => .error ()
  | _ => .error ()

/-- One decoded forecast point (`forecastAPIResp`): `Dt`, the `Main`
block, `Wind.Speed`, and the `Weather` array of which only the first
element's `Description` is ever used. -/
structure ForecastEntry where
  dt           : Int
  temp         : ℚ
  feelsLike    : ℚ
  pressure     : Int
  windSpeed    : ℚ
  descriptions : List String
deriving DecidableEq, Repr

/-- The decoded hourly-forecast response (`listForecastAPIResp`): `Cnt`
and `List`. -/
structure ListForecastResp where
  cnt  : Int
  list : List ForecastEntry
deriving DecidableEq, Repr

/-- The possible outcomes of `getWeatherForecast`: a 24-point series with
a nil error, the empty slice `[]forecastAPIResp{}` together with an
error, or a run-time panic of the slice expression `List[0:24]`. -/
inductive ForecastOut where
  | ok (points : List ForecastEntry)
  | err (points : List ForecastEntry)
  | panicked
deriving DecidableEq, Repr

/-- The tail of `getWeatherForecast` (provider file, lines 581-593), after
the body has been read: reject `Cnt == 0` or an empty list with an error,
then evaluate `forecastResp.List[0:24]`.  Go's slice expression panics
when 24 exceeds the slice's capacity; after `json.Unmarshal` the
capacity can exceed the length (append growth), in which case Go would
instead silently pad with zero-valued points — either behaviour falls
outside "the first 24 points of the provider's ordered list", and for
the short lists considered here (length 5, capacity at most 8) the
observed behaviour is the panic, which `.panicked` records. -/
def getWeatherForecastCore (r : ListForecastResp) : ForecastOut :=
  if r.cnt = 0 ∨ r.list = [] then .err []
  else if r.list.length < 24 then .panicked
  else .ok (r.list.take 24)

/-- `getWeatherForecast` (provider file, lines 551-593): the transport /
non-200 / read / decode failures each return the empty slice with an
error; a decoded response is handled by `getWeatherForecastCore`. -/
def getWeatherForecast (fetch : Except Unit ListForecastResp) : ForecastOut :=
  match fetch with
  | .error _ => .err []
  | .ok r => getWeatherForecastCore r

/-- `%.1f` of an exact rational: round to one decimal and print.  Ties
(which no claim exercises) round as Mathlib's `round` does; Go rounds the
nearest `float32` half-to-even.  `-0.04` prints as `0.0` rather than
Go's `-0.0`; no claim exercises that either. -/
def fmt1 (q : ℚ) : String :=
  let n : Int := round (q * 10)
  let sign := if n < 0 then "-" else ""
  let a := n.natAbs
  sign ++ toString (a / 10) ++ "." ++ toString (a % 10)

/-- Two-digit zero padding, as Go's `02`/`15`/`04` format verbs. -/
def pad2 (n : Nat) : String :=
  if n < 10 then "0" ++ toString n else toString n

/-- Go's `Jan` month abbreviations. -/
def monthName : Nat → String
  | 1 => "Jan" | 2 => "Feb" | 3 => "Mar" | 4 => "Apr" | 5 => "May" | 6 => "Jun"
  | 7 => "Jul" | 8 => "Aug" | 9 => "Sep" | 10 => "Oct" | 11 => "Nov" | 12 => "Dec"
  | _ => "???"

/-- (year, month, day) of a day count since 1970-01-01, for non-negative
day counts (the civil-from-days algorithm). -/
def civilFromDays (z0 : Nat) : Nat × Nat × Nat :=
  let z := z0 + 719468
  let era := z / 146097
  let doe := z % 146097
  let yoe := (doe - doe / 1460 + doe / 36524 - doe / 146096) / 365
  let y := yoe + era * 400
  let doy := doe - (365 * yoe + yoe / 4 - yoe / 100)
  let mp := (5 * doy + 2) / 153
  let d := doy - (153 * mp + 2) / 5 + 1
  let m := if mp < 10 then mp + 3 else mp - 9
  (if m ≤ 2 then y + 1 else y, m, d)

/-- `time.Unix(dt, 0).Format("02 Jan 15:04")` for the non-negative
timestamps the claims exercise, rendered in UTC (the Go process renders
in its local timezone; no claim depends on the offset). -/
def formatUnixTime (dt : Int) : String :=
  let s := dt.toNat
  let (_, m, d) := civilFromDays (s / 86400)
  pad2 d ++ " " ++ monthName m ++ " " ++ pad2 (s % 86400 / 3600) ++ ":" ++
    pad2 (s % 3600 / 60)

/-- One `<li>` line of the digest (part_001, lines 387-397): local time,
temperature, feels-like, `pressure * 0.75` (the mm-Hg conversion), wind
speed, and the first `Weather` description or `"N/A"` when the array is
empty. -/
def renderEntry (entry : ForecastEntry) : String :=
  let desc := match entry.descriptions with
    | [] => "N/A"
    | d :: _ => d
  "<li>" ++ formatUnixTime entry.dt ++ ": " ++ fmt1 entry.temp ++
    "°C (ощущается как " ++ fmt1 entry.feelsLike ++ "°C), давление " ++
    fmt1 ((entry.pressure : ℚ) * (3 / 4)) ++ " мм.рт.ст, ветер " ++
    fmt1 entry.windSpeed ++ " м/с, " ++ desc ++ "</li>"

/-- The section `createEmailBody` emits for one forecast: nothing at all
for an empty series (the `len(forecast) == 0` `continue`), otherwise the
`<h2>` header carrying the given name followed by the `<ul>` of entries. -/
def citySection (name : String) (forecast : List ForecastEntry) : String :=
  match forecast with
  | [] => ""
  | _ =>
    "<h2><b>" ++ name ++ "</b></h2>" ++ "<ul>" ++
      String.join (forecast.map renderEntry) ++ "</ul>"

/-- The indexed loop `for i, forecast := range forecastParts` of
`createEmailBody` (part_001, lines 378-399): the `i`-th forecast series
is headed by `cities[i]`.  `forecastParts` is never longer than `cities`
at the call site, so the (otherwise panicking) index is total here via
`getD`. -/
def bodySections (i : Nat) (cities : List String) :
    List (List ForecastEntry) → String
  | [] => ""
  | forecast :: rest =>
    citySection (cities.getD i "") forecast ++ bodySections (i + 1) cities rest

/-- The fixed opening of the digest body (part_001, lines 373-376). -/
def emailBodyHead : String :=
  "<html><body><h1>Привет!</h1><p>Вот твой ежедневный прогноз погоды:</p>"

/-- The fixed closing of the digest body (part_001, lines 401-404). -/
def emailBodyTail : String :=
  "<p>Спасибо, что используешь наш сервис!</p></body></html>"

/-- `createEmailBody` (part_001, lines 372-407).  The Go original also
returns an error that is `nil` on every path, so the caller's
error branch is dead and is not modelled. -/
def createEmailBody (forecastParts : List (List ForecastEntry))
    (cities : List String) : String :=
  emailBodyHead ++ bodySections 0 cities forecastParts ++ emailBodyTail

/-- The task `sendWeatherEmails` composes for one user (part_001, lines
308-314): the fixed subject, the `daily_forecast` type tag and the fixed
metadata. -/
def dailyTask (email body : String) : EmailTask :=
  { To := email
    Subject := "Ежедневный прогноз погоды"
    Body := body
    TypeTag := "daily_forecast"
    Meta := some [("sent_by", .jstr "weather_service")] }

/-- The per-run forecast cache `mapOfCityWeatherForecast`. -/
abbrev ForecastCache := List (String × List ForecastEntry)

/-- What scanning one user's city list produces: the cache afterwards,
`forecastParts`, the cities `getWeatherForecast` was invoked for (in
order, repeats included), and the names looked up in `mapOfCities`. -/
structure CityScanOut where
  cache : ForecastCache
  parts : List (List ForecastEntry)
  calls : List String
  reads : List String
deriving Repr

/-- The inner city loop of `sendWeatherEmails` (part_001, lines 278-295):
per city, first the cache, then the registry (a skipped unknown city),
then the provider (a skipped failed fetch, **not** memoized); only a
successful fetch is written to the cache. -/
def collectForecasts (registry : Registry)
    (gf : CityType → Except Unit (List ForecastEntry)) :
    ForecastCache → List String → CityScanOut
  | cache, [] => ⟨cache, [], [], []⟩
  | cache, city :: rest =>
    match alookup cache city with
    | some val =>
      let out := collectForecasts registry gf cache rest
      ⟨out.cache, val :: out.parts, out.calls, out.reads⟩
    | none =>
      match alookup registry city with
      | none =>
        let out := collectForecasts registry gf cache rest
        ⟨out.cache, out.parts, out.calls, city :: out.reads⟩
      | some cityData =>
        match gf cityData with
        | .error _ =>
          let out := collectForecasts registry gf cache rest
          ⟨out.cache, out.parts, city :: out.calls, city :: out.reads⟩
        | .ok forecast =>
          let out := collectForecasts registry gf (ainsert cache city forecast) rest
          ⟨out.cache, forecast :: out.parts, city :: out.calls, city :: out.reads⟩

/-- What one dispatch tick produces: the tasks whose publish succeeded,
the tasks dropped by a failed publish, the provider calls and registry
reads issued, and the final per-run cache. -/
structure DispatchOut where
  published : List EmailTask
  dropped   : List EmailTask
  calls     : List String
  reads     : List String
  cache     : ForecastCache
deriving Repr

/-- The per-user loop of `sendWeatherEmails` (part_001, lines 266-325),
threading the per-run cache: a user with no obtained series is skipped
before anything is composed; otherwise the digest task is published, and
a failed publish drops that task and continues with the next user. -/
def sendLoop (registry : Registry)
    (gf : CityType → Except Unit (List ForecastEntry))
    (pub : EmailTask → Bool) :
    ForecastCache → List (String × List String) → DispatchOut
  | cache, [] => ⟨[], [], [], [], cache⟩
  | cache, (email, cities) :: rest =>
    let scan := collectForecasts registry gf cache cities
    match scan.parts with
    | [] =>
      let out := sendLoop registry gf pub scan.cache rest
      ⟨out.published, out.dropped, scan.calls ++ out.calls,
        scan.reads ++ out.reads, out.cache⟩
    | _ =>
      let task := dailyTask email (createEmailBody scan.parts cities)
      let out := sendLoop registry gf pub scan.cache rest
      if pub task then
        ⟨task :: out.published, out.dropped, scan.calls ++ out.calls,
          scan.reads ++ out.reads, out.cache⟩
      else
        ⟨out.published, task :: out.dropped, scan.calls ++ out.calls,
          scan.reads ++ out.reads, out.cache⟩

/-- `sendWeatherEmails` (part_001, lines 249-328) for one tick: the users
are the decoded rows of `SELECT email, cities FROM users` (a row whose
scan fails is skipped by the source before this loop); the per-run cache
starts empty. -/
def sendWeatherEmails (registry : Registry)
    (gf : CityType → Except Unit (List ForecastEntry))
    (pub : EmailTask → Bool) (users : List (String × List String)) : DispatchOut :=
  sendLoop registry gf pub [] users

/-- `UserData` (part_001, lines 18-22): the decoded request body. -/
structure UserData where
  email    : String
  password : String
  cities   : List String
deriving DecidableEq, Repr

/-- The outcome of `DB.QueryRow("SELECT email FROM users WHERE
email=$1")…Scan`: a row found (`err == nil`), `sql.ErrNoRows`, or some
other database error. -/
inductive QueryOutcome where
  | found
  | noRows
  | dbErr
deriving DecidableEq, Repr

/-- The errors `createUser` can return, in the order its body can
produce them. -/
inductive CreateUserErr where
  | decodeErr
  | userAlreadyExists
  | selectErr
  | missingFields
  | hashErr
  | addCities (e : AddCitiesErr)
  | insertErr
deriving DecidableEq, Repr

/-- What one `createUser` call returns and does: its error (or `none` on
success), the geocoding calls issued via `addCitiesToDB`, the registry
afterwards, the `users` row inserted, and whether the detached welcome
publish was spawned. -/
structure CreateUserResult where
  ret          : Option CreateUserErr
  geoCalls     : List String
  registry     : Registry
  insertedUser : Option (String × List String)
  welcomeSpawned : Bool
deriving Repr

/-- `createUser` (part_001, lines 69-128), in source order: decode the
body; look the email up in `users` and return `errUserExist` as soon as a
row exists — **before** the required-fields validation, the bcrypt hash,
and any call into `addCitiesToDB`; then validate, hash (`hashOk` is the
bcrypt outcome), resolve-and-register the cities, insert the user row
with the returned city list, and finally spawn the fire-and-forget
welcome publish. -/
def createUser (decodeRes : Except Unit UserData)
    (queryEmail : String → QueryOutcome) (hashOk : Bool)
    (geo : String → Except GeoErr CityType) (registry : Registry)
    (prepareOk sendOk insertOk : Bool) : CreateUserResult :=
  match decodeRes with
  | .error _ => ⟨some .decodeErr, [], registry, none, false⟩
  | .ok userData =>
    match queryEmail userData.email with
    | .found => ⟨some .userAlreadyExists, [], registry, none, false⟩
    | .dbErr => ⟨some .selectErr, [], registry, none, false⟩
    | .noRows =>
      if userData.email = "" ∨ userData.password = "" then
        ⟨some .missingFields, [], registry, none, false⟩
      else if hashOk = false then
        ⟨some .hashErr, [], registry, none, false⟩
      else
        let r := addCitiesToDB geo registry prepareOk sendOk userData.cities
        match r.ret with
        | .error e => ⟨some (.addCities e), r.geoCalls, r.registry, none, false⟩
        | .ok addedCities =>
          if insertOk = false then
            ⟨some .insertErr, r.geoCalls, r.registry, none, false⟩
          else
            ⟨none, r.geoCalls, r.registry,
              some (userData.email, addedCities), true⟩

/-- The value of a successful current-weather fetch; the zero response
for the (irrelevant) error case. -/
def okOrZero : Except Unit WeatherAPIResp → WeatherAPIResp
  | .ok w => w
  | .error _ => ⟨0, 0, 0, 0, 0, 0⟩

/-- An operation on the reader-writer lock `mapMu`
(ClickHouseFuncs.go:18). -/
inductive MutexOp where
  | rwLock
  | rwUnlock
  | readerLock
  | readerUnlock
deriving DecidableEq, Repr

/-- The operations the package performs on `mapMu`, anywhere: the mutex
is declared at ClickHouseFuncs.go:18 and no `Lock`, `Unlock`, `RLock` or
`RUnlock` call on it appears in any source file, so every code path's
trace of mutex operations is the empty list. -/
def mapMuOps : List MutexOp := []

/-! ## Helper lemmas -/

theorem string_append_empty (s : String) : s ++ "" = s := by
  cases s with
  | mk l => show String.mk (l ++ []) = String.mk l
            rw [List.append_nil]

theorem isOk_ok {ε α : Type} (a : α) : (Except.ok a : Except ε α).isOk = true := rfl

theorem isOk_error {ε α : Type} (e : ε) :
    (Except.error e : Except ε α).isOk = false := rfl

/-- A geocoding failure (whose zero-valued city name `""` is not a
registered key) aborts the `addCitiesToDB` loop with an error, whatever
has been processed so far. -/
theorem addCitiesLoop_fails (geo : String → Except GeoErr CityType)
    (registry : Registry) (hreg : acontains registry "" = false)
    (cities : List String) (st : AddLoopState)
    (hfail : ∃ n ∈ cities, (geo n).isOk = false) :
    (addCitiesLoop geo registry st cities).2.isSome = true := by
  induction cities generalizing st with
  | nil => simp at hfail
  | cons cityName rest ih =>
    rcases hfail with ⟨n, hn, hbad⟩
    rcases hok : geo cityName with e | c
    · simp only [addCitiesLoop, hok, geoValue, hreg]
      simp
    · rcases List.mem_cons.mp hn with h | h
      · subst h; rw [hok] at hbad; simp [isOk_ok] at hbad
      · simp only [addCitiesLoop, hok, geoValue]
        split
        · exact ih _ ⟨n, h, hbad⟩
        · exact ih _ ⟨n, h, hbad⟩

/-- When every input name geocodes successfully, the `addCitiesToDB` loop
runs to the end without error and calls the geocoder once per input
occurrence, in order. -/
theorem addCitiesLoop_all_ok (geo : String → Except GeoErr CityType)
    (registry : Registry) (cities : List String) (st : AddLoopState)
    (h : ∀ n ∈ cities, (geo n).isOk = true) :
    (addCitiesLoop geo registry st cities).1.calls = st.calls ++ cities ∧
    (addCitiesLoop geo registry st cities).2 = none := by
  induction cities generalizing st with
  | nil => simp [addCitiesLoop]
  | cons cityName rest ih =>
    rcases hok : geo cityName with e | c
    · have := h cityName (List.mem_cons_self _ _)
      rw [hok] at this; simp [isOk_error] at this
    · have hrest : ∀ n ∈ rest, (geo n).isOk = true :=
        fun n hn => h n (List.mem_cons_of_mem _ hn)
      simp only [addCitiesLoop, hok, geoValue]
      split
      · refine ⟨?_, (ih _ hrest).2⟩
        rw [(ih _ hrest).1]
        simp
      · refine ⟨?_, (ih _ hrest).2⟩
        rw [(ih _ hrest).1]
        simp

/-! ## C1 — fail-fast registration (`addCitiesToDB`) -/

/-- The zero value `CityType{}`. -/
def cZero : CityType := ⟨"", 0, 0⟩

def cParis : CityType := ⟨"Paris", 48, 2⟩

/-- A geocoder that resolves Paris and fails on everything else. -/
def geoParisOnly : String → Except GeoErr CityType := fun n =>
  if n = "Paris" then .ok cParis else .error .noResults

/-- A registry state holding the empty name as a key (reachable: the
`cities` table is loaded verbatim at startup, and a provider candidate
decoded without a `name` field registers under `""`). -/
def regEmptyKey : Registry := [("", cZero)]

/-- C1, counterexample.  With `""` a registered key, Rome's geocoding
failure is **not** fail-fast: `addCitiesToDB` checks
`mapOfCities[city.Name]` for the zero-valued `city.Name == ""` *before*
checking the error (ClickHouseFuncs.go:139-145), swallows the failure,
returns `nil` error — and commits Paris, so the registry also changes. -/
theorem addCitiesToDB_fail_fast_cex :
    (geoParisOnly "Rome").isOk = false ∧
    (addCitiesToDB geoParisOnly regEmptyKey true true ["Paris", "Rome"]).ret.isOk
      = true ∧
    (addCitiesToDB geoParisOnly regEmptyKey true true ["Paris", "Rome"]).registry
      ≠ regEmptyKey := by
  refine ⟨rfl, rfl, ?_⟩
  decide

/-- C1, amended: provided no registered city has the empty name (so a
failure's zero-valued `CityType{}` cannot be mistaken for a registered
city), any geocoding failure among the inputs, or a failed batch `Send`,
makes `addCitiesToDB` return an error with the in-memory registry exactly
as before the call — no partial commit. -/
theorem addCitiesToDB_fail_fast (geo : String → Except GeoErr CityType)
    (registry : Registry) (prepareOk sendOk : Bool) (cities : List String)
    (hreg : acontains registry "" = false)
    (hfail : (∃ n ∈ cities, (geo n).isOk = false) ∨ sendOk = false) :
    (addCitiesToDB geo registry prepareOk sendOk cities).ret.isOk = false ∧
    (addCitiesToDB geo registry prepareOk sendOk cities).registry = registry := by
  unfold addCitiesToDB
  by_cases hp : prepareOk = false
  · simp [hp, isOk_error]
  · simp only [hp, if_false, Bool.false_eq_true]
    rcases hloop : addCitiesLoop geo registry ⟨[], [], [], []⟩ cities with ⟨st, e?⟩
    cases e? with
    | some e => simp [isOk_error]
    | none =>
      rcases hfail with hgeo | hsend
      · have := addCitiesLoop_fails geo registry hreg cities ⟨[], [], [], []⟩ hgeo
        rw [hloop] at this
        simp at this
      · subst hsend
        simp [isOk_error]

/-- C1, witness: a clean registry, Paris resolving, Rome failing: the
call errors and the registry is untouched. -/
theorem addCitiesToDB_fail_fast_witness :
    (addCitiesToDB geoParisOnly [("Oslo", ⟨"Oslo", 59, 10⟩)] true true
        ["Paris", "Rome"]).ret.isOk = false ∧
    (addCitiesToDB geoParisOnly [("Oslo", ⟨"Oslo", 59, 10⟩)] true true
        ["Paris", "Rome"]).registry = [("Oslo", ⟨"Oslo", 59, 10⟩)] :=
  addCitiesToDB_fail_fast geoParisOnly _ true true _ (by decide)
    (Or.inl ⟨"Rome", by decide, by decide⟩)

/-! ## C5 — geocoding-call accounting of `addCitiesToDB` -/

def cTokyo : CityType := ⟨"Tokyo", 35, 139⟩

def cOslo : CityType := ⟨"Oslo", 59, 10⟩

/-- A geocoder resolving exactly Tokyo and Oslo. -/
def geoTokyoOslo : String → Except GeoErr CityType := fun n =>
  if n = "Tokyo" then .ok cTokyo
  else if n = "Oslo" then .ok cOslo
  else .error .noResults

/-- C5, counterexample.  Registering `["Tokyo","Tokyo","Oslo"]` against
an empty registry issues **3** geocoding calls, not one per distinct name
(2): the loop calls `getCoordinates` for every occurrence before any
membership check (ClickHouseFuncs.go:138).  The registry does end with
exactly 2 entries.  A subsequent registration of `"Tokyo"` issues **1**
further geocoding call, not zero: membership is only tested on the name
the geocoder returned. -/
theorem addCitiesToDB_dedup_cex :
    (addCitiesToDB geoTokyoOslo [] true true
        ["Tokyo", "Tokyo", "Oslo"]).geoCalls.length = 3 ∧
    (addCitiesToDB geoTokyoOslo [] true true
        ["Tokyo", "Tokyo", "Oslo"]).registry.length = 2 ∧
    (addCitiesToDB geoTokyoOslo
        (addCitiesToDB geoTokyoOslo [] true true ["Tokyo", "Tokyo", "Oslo"]).registry
        true true ["Tokyo"]).geoCalls.length = 1 :=
  ⟨rfl, rfl, rfl⟩

/-- C5, amended: when every input name geocodes successfully (and the
batch is prepared), `addCitiesToDB` issues exactly one geocoding call per
input *occurrence* — duplicates and already-registered names included —
and the `["Tokyo","Tokyo","Oslo"]`-against-empty-registry scenario still
leaves exactly 2 registry entries, the double insert being collapsed by
`tmpMapOfCities`. -/
theorem addCitiesToDB_geocode_calls (geo : String → Except GeoErr CityType)
    (registry : Registry) (sendOk : Bool) (cities : List String)
    (h : ∀ n ∈ cities, (geo n).isOk = true) :
    (addCitiesToDB geo registry true sendOk cities).geoCalls = cities ∧
    (addCitiesToDB geoTokyoOslo [] true true
        ["Tokyo", "Tokyo", "Oslo"]).registry.length = 2 := by
  refine ⟨?_, rfl⟩
  unfold addCitiesToDB
  rcases hloop : addCitiesLoop geo registry ⟨[], [], [], []⟩ cities with ⟨st, e?⟩
  have hall := addCitiesLoop_all_ok geo registry cities ⟨[], [], [], []⟩ h
  rw [hloop] at hall
  rcases hall with ⟨hcalls, hnone⟩
  cases e? with
  | some e => simp at hnone
  | none =>
    by_cases hs : sendOk = false
    · simp only [hs]
      simpa using hcalls
    · simp only [hs]
      simpa using hcalls

/-- C5, witness for the amended claim at the claim's own scenario. -/
theorem addCitiesToDB_geocode_calls_witness :
    (addCitiesToDB geoTokyoOslo [] true true
        ["Tokyo", "Tokyo", "Oslo"]).geoCalls = ["Tokyo", "Tokyo", "Oslo"] ∧
    (addCitiesToDB geoTokyoOslo [] true true
        ["Tokyo", "Tokyo", "Oslo"]).registry.length = 2 :=
  addCitiesToDB_geocode_calls geoTokyoOslo [] true _ (by decide)

/-! ## C2 — all-or-nothing collection tick (`insertWeatherData`) -/

/-- A failing fetch anywhere in the snapshot aborts the per-city loop
with an error. -/
theorem insertWeatherLoop_fails (gw : CityType → Except Unit WeatherAPIResp)
    (cities : List (String × CityType))
    (hfail : ∃ c ∈ cities, (gw c.2).isOk = false) :
    (insertWeatherLoop gw cities).isOk = false := by
  induction cities with
  | nil => simp at hfail
  | cons c rest ih =>
    rcases hfail with ⟨d, hd, hbad⟩
    rcases hok : gw c.2 with e | w
    · simp [insertWeatherLoop, hok, isOk_error]
    · rcases List.mem_cons.mp hd with h | h
      · subst h; rw [hok] at hbad; simp [isOk_ok] at hbad
      · have := ih ⟨d, h, hbad⟩
        rcases c with ⟨name, city⟩
        simp only [insertWeatherLoop, hok]
        rcases hrest : insertWeatherLoop gw rest with e | rows
        · simp [isOk_error]
        · rw [hrest] at this; simp [isOk_ok] at this

/-- When every fetch succeeds the loop returns one row per city, in
order. -/
theorem insertWeatherLoop_ok (gw : CityType → Except Unit WeatherAPIResp)
    (cities : List (String × CityType))
    (h : ∀ c ∈ cities, (gw c.2).isOk = true) :
    insertWeatherLoop gw cities
      = .ok (cities.map fun c => metricRow c.1 (okOrZero (gw c.2))) := by
  induction cities with
  | nil => simp [insertWeatherLoop]
  | cons c rest ih =>
    rcases hok : gw c.2 with e | w
    · have := h c (List.mem_cons_self _ _)
      rw [hok] at this; simp [isOk_error] at this
    · rcases c with ⟨name, city⟩
      simp only [insertWeatherLoop, hok]
      rw [ih fun d hd => h d (List.mem_cons_of_mem _ hd)]
      simp [okOrZero, hok]

/-- C2: one collection tick is all-or-nothing.  If any registered city's
current-weather fetch fails, the tick returns an error and **zero**
metric rows are persisted (the single `batch.Send` never runs); if every
fetch succeeds (and the batch machinery works), the tick succeeds and
persists exactly one row per city of the snapshot, in one batch. -/
theorem insertWeatherData_all_or_nothing (gw : CityType → Except Unit WeatherAPIResp)
    (prepareOk sendOk : Bool) (cities : List (String × CityType)) :
    ((∃ c ∈ cities, (gw c.2).isOk = false) →
      (insertWeatherData gw prepareOk sendOk cities).ret.isOk = false ∧
      (insertWeatherData gw prepareOk sendOk cities).sentRows = []) ∧
    ((∀ c ∈ cities, (gw c.2).isOk = true) →
      (insertWeatherData gw true true cities).ret.isOk = true ∧
      (insertWeatherData gw true true cities).sentRows
        = cities.map fun c => metricRow c.1 (okOrZero (gw c.2))) := by
  constructor
  · intro hfail
    unfold insertWeatherData
    by_cases hp : prepareOk = false
    · simp [hp, isOk_error]
    · simp only [hp, if_false, Bool.false_eq_true]
      have := insertWeatherLoop_fails gw cities hfail
      rcases hloop : insertWeatherLoop gw cities with e | rows
      · simp [isOk_error]
      · rw [hloop] at this; simp [isOk_ok] at this
  · intro h
    unfold insertWeatherData
    rw [insertWeatherLoop_ok gw cities h]
    simp [isOk_ok]

/-- A two-city snapshot for the C2 witness. -/
def cityA : CityType := ⟨"A", 1, 2⟩

def cityB : CityType := ⟨"B", 3, 4⟩

/-- The zero-valued current-weather response used by the witness. -/
def wZero : WeatherAPIResp := ⟨0, 0, 0, 0, 0, 0⟩

/-- A fetcher for which city B fails and everything else succeeds. -/
def gwBFails : CityType → Except Unit WeatherAPIResp := fun c =>
  if c.name = "B" then .error () else .ok wZero

/-- C2, witness: collecting `[A, B, C]` where B's fetch fails writes zero
rows; collecting `[A]` alone succeeds with exactly A's row. -/
theorem insertWeatherData_all_or_nothing_witness :
    ((insertWeatherData gwBFails true true
        [("A", cityA), ("B", cityB), ("C", ⟨"C", 5, 6⟩)]).ret.isOk = false ∧
      (insertWeatherData gwBFails true true
        [("A", cityA), ("B", cityB), ("C", ⟨"C", 5, 6⟩)]).sentRows = []) ∧
    ((insertWeatherData gwBFails true true [("A", cityA)]).ret.isOk = true ∧
      (insertWeatherData gwBFails true true [("A", cityA)]).sentRows
        = [metricRow "A" (okOrZero (gwBFails cityA))]) :=
  ⟨(insertWeatherData_all_or_nothing gwBFails true true _).1
      ⟨("B", cityB), by decide, by decide⟩,
    (insertWeatherData_all_or_nothing gwBFails true true _).2 (by decide)⟩

/-! ## C10 — duplicate-email short-circuit in `createUser` -/

/-- C10: as soon as the email-existence query finds a row, `createUser`
returns `errUserExist` — before the required-fields validation, the
bcrypt hash, any geocoding call, any registry change and any user-row
insert.  In particular a duplicate request with an empty password gets
the duplicate error, not the validation error. -/
theorem createUser_duplicate_short_circuit (u : UserData)
    (queryEmail : String → QueryOutcome) (hashOk : Bool)
    (geo : String → Except GeoErr CityType) (registry : Registry)
    (prepareOk sendOk insertOk : Bool)
    (hfound : queryEmail u.email = .found) :
    createUser (.ok u) queryEmail hashOk geo registry prepareOk sendOk insertOk
      = ⟨some .userAlreadyExists, [], registry, none, false⟩ := by
  simp [createUser, hfound]

/-- C10, witness: a duplicate email with an **empty password** and a city
list that would otherwise trigger geocoding: the result is the
duplicate-user error with no geocoding calls, the registry untouched and
no row inserted. -/
theorem createUser_duplicate_short_circuit_witness :
    createUser (.ok ⟨"a@b.c", "", ["Paris"]⟩) (fun _ => .found) true
        geoParisOnly [] true true true
      = ⟨some .userAlreadyExists, [], [], none, false⟩ :=
  createUser_duplicate_short_circuit ⟨"a@b.c", "", ["Paris"]⟩ (fun _ => .found)
    true geoParisOnly [] true true true rfl

/-! ## C3 / C4 — dispatch-tick failure isolation and memoization -/

/-- "This city contributes no series for this user": it is absent from
the registry, or its forecast fetch fails. -/
def cityYieldsNothing (registry : Registry)
    (gf : CityType → Except Unit (List ForecastEntry)) (c : String) : Prop :=
  alookup registry c = none ∨
    ∃ cd, alookup registry c = some cd ∧ (gf cd).isOk = false

/-- Scanning from an empty cache a city list in which every city yields
nothing produces no parts and leaves the cache empty (failures are not
memoized). -/
theorem collectForecasts_none (registry : Registry)
    (gf : CityType → Except Unit (List ForecastEntry)) (cities : List String)
    (h : ∀ c ∈ cities, cityYieldsNothing registry gf c) :
    (collectForecasts registry gf [] cities).parts = [] ∧
    (collectForecasts registry gf [] cities).cache = [] := by
  induction cities with
  | nil => simp [collectForecasts]
  | cons c rest ih =>
    have hrest := ih fun d hd => h d (List.mem_cons_of_mem _ hd)
    rcases h c (List.mem_cons_self _ _) with hnone | ⟨cd, hcd, hbad⟩
    · simp only [collectForecasts, alookup, hnone]
      simpa using hrest
    · rcases hgf : gf cd with e | v
      · simp only [collectForecasts, alookup, hcd, hgf]
        simpa using hrest
      · rw [hgf] at hbad; simp [isOk_ok] at hbad

/-- Scanning `[a, b]` from an empty cache where `a` resolves and fetches
successfully and `b` yields nothing: the parts are exactly `a`'s series
and the cache memoizes exactly `a`. -/
theorem collectForecasts_pair (registry : Registry)
    (gf : CityType → Except Unit (List ForecastEntry)) (a b : String)
    (ca : CityType) (fa : List ForecastEntry)
    (ha : alookup registry a = some ca) (hfa : gf ca = .ok fa) (hab : a ≠ b)
    (hb : cityYieldsNothing registry gf b) :
    ∃ calls reads,
      collectForecasts registry gf [] [a, b] = ⟨[(a, fa)], [fa], calls, reads⟩ := by
  rcases hb with hnone | ⟨cb, hcb, hbad⟩
  · refine ⟨[a], [a, b], ?_⟩
    simp [collectForecasts, alookup, ha, hfa, ainsert, hab, hnone]
  · rcases hgf : gf cb with e | v
    · refine ⟨[a, b], [a, b], ?_⟩
      simp [collectForecasts, alookup, ha, hfa, ainsert, hab, hcb, hgf]
    · rw [hgf] at hbad; simp [isOk_ok] at hbad

/-- The digest body for a single obtained series, headed by the first
subscribed city. -/
theorem createEmailBody_single (a b : String) (fa : List ForecastEntry) :
    createEmailBody [fa] [a, b] = emailBodyHead ++ citySection a fa ++ emailBodyTail := by
  simp only [createEmailBody, bodySections, List.getD, List.get?, Option.getD]
  rw [string_append_empty]

/-- C3: dispatch failures are isolated per city and per user.
With `a` registered and fetching successfully, `b` yielding nothing
(unregistered or failing fetch), and `cities0` a list of cities all
yielding nothing: (1) a user subscribed to `[a, b]` whose digest publish
succeeds gets exactly one task, whose body contains only `a`'s section;
(2) if that user's publish fails, only their digest is dropped and the
loop continues into the remaining users unchanged (with `a`'s fetch
memoized); (3) a user none of whose cities yielded a series is skipped
entirely — nothing composed, published or dropped for them — and the
remaining users proceed exactly as if that user were absent. -/
theorem sendWeatherEmails_failure_isolation (registry : Registry)
    (gf : CityType → Except Unit (List ForecastEntry)) (pub : EmailTask → Bool)
    (email email2 email0 : String) (a b : String) (ca : CityType)
    (fa : List ForecastEntry) (cities0 : List String)
    (users' : List (String × List String))
    (ha : alookup registry a = some ca) (hfa : gf ca = .ok fa) (hab : a ≠ b)
    (hb : cityYieldsNothing registry gf b)
    (h0 : ∀ c ∈ cities0, cityYieldsNothing registry gf c) :
    (pub (dailyTask email (createEmailBody [fa] [a, b])) = true →
      (sendWeatherEmails registry gf pub [(email, [a, b])]).published
        = [dailyTask email (emailBodyHead ++ citySection a fa ++ emailBodyTail)]) ∧
    (pub (dailyTask email2 (createEmailBody [fa] [a, b])) = false →
      (sendWeatherEmails registry gf pub ((email2, [a, b]) :: users')).published
        = (sendLoop registry gf pub [(a, fa)] users').published ∧
      (sendWeatherEmails registry gf pub ((email2, [a, b]) :: users')).dropped
        = dailyTask email2 (createEmailBody [fa] [a, b])
            :: (sendLoop registry gf pub [(a, fa)] users').dropped) ∧
    ((sendWeatherEmails registry gf pub ((email0, cities0) :: users')).published
        = (sendWeatherEmails registry gf pub users').published ∧
      (sendWeatherEmails registry gf pub ((email0, cities0) :: users')).dropped
        = (sendWeatherEmails registry gf pub users').dropped) := by
  obtain ⟨calls, reads, hscan⟩ :=
    collectForecasts_pair registry gf a b ca fa ha hfa hab hb
  refine ⟨?_, ?_, ?_⟩
  · intro hpub
    rw [createEmailBody_single] at hpub
    simp [sendWeatherEmails, sendLoop, hscan, createEmailBody_single, hpub]
  · intro hpub
    rw [createEmailBody_single] at hpub
    constructor
    · simp [sendWeatherEmails, sendLoop, hscan, createEmailBody_single, hpub]
    · simp [sendWeatherEmails, sendLoop, hscan, createEmailBody_single, hpub]
  · have h0' := collectForecasts_none registry gf cities0 h0
    rcases hscan0 : collectForecasts registry gf [] cities0 with ⟨cache0, parts0, calls0, reads0⟩
    rw [hscan0] at h0'
    obtain ⟨hp0, hc0⟩ := h0'
    simp only at hp0 hc0
    subst hp0 hc0
    constructor
    · simp [sendWeatherEmails, sendLoop, hscan0]
    · simp [sendWeatherEmails, sendLoop, hscan0]

/-- The C3/C4 witness registry: only city A is registered. -/
def regA : Registry := [("A", cityA)]

/-- A forecast provider succeeding (with an empty series) exactly for
city A. -/
def gfAOnly : CityType → Except Unit (List ForecastEntry) := fun c =>
  if c.name = "A" then .ok [] else .error ()

/-- A publisher accepting exactly alice's tasks. -/
def pubAliceOnly : EmailTask → Bool := fun t => t.To == "alice"

/-- C3, witness at a concrete run: alice's digest (city B yields nothing)
is published with only A's section; bob's publish failure drops only
bob's digest; carol (whose only city is unknown) has nothing composed,
published or dropped. -/
theorem sendWeatherEmails_failure_isolation_witness :
    ((sendWeatherEmails regA gfAOnly pubAliceOnly [("alice", ["A", "B"])]).published
        = [dailyTask "alice" (emailBodyHead ++ citySection "A" [] ++ emailBodyTail)]) ∧
    ((sendWeatherEmails regA gfAOnly pubAliceOnly [("bob", ["A", "B"])]).published
        = (sendLoop regA gfAOnly pubAliceOnly [("A", [])] []).published ∧
      (sendWeatherEmails regA gfAOnly pubAliceOnly [("bob", ["A", "B"])]).dropped
        = dailyTask "bob" (createEmailBody [[]] ["A", "B"])
            :: (sendLoop regA gfAOnly pubAliceOnly [("A", [])] []).dropped) ∧
    ((sendWeatherEmails regA gfAOnly pubAliceOnly [("carol", ["C"])]).published
        = (sendWeatherEmails regA gfAOnly pubAliceOnly []).published ∧
      (sendWeatherEmails regA gfAOnly pubAliceOnly [("carol", ["C"])]).dropped
        = (sendWeatherEmails regA gfAOnly pubAliceOnly []).dropped) := by
  have h := sendWeatherEmails_failure_isolation regA gfAOnly pubAliceOnly
    "alice" "bob" "carol" "A" "B" cityA [] ["C"] [] rfl rfl (by decide)
    (Or.inl rfl)
    (by intro c hc
        simp at hc
        subst hc
        exact Or.inl rfl)
  exact ⟨h.1 rfl, h.2.1 rfl, h.2.2⟩

/-- C4: the per-run forecast cache memoizes successes only.
(1) A city already in the cache contributes its cached series and adds no
provider call.  (2) Two users subscribed to the same registered city
whose fetch succeeds cause exactly one provider call in the tick.
(3) With the fetch failing, the failure is not memoized: the second user
triggers a fresh provider call (two calls in the tick). -/
theorem forecastCache_memoizes_successes (registry : Registry)
    (gf : CityType → Except Unit (List ForecastEntry)) (pub : EmailTask → Bool)
    (e1 e2 city : String) (cd : CityType) (cache : ForecastCache)
    (val : List ForecastEntry) (rest : List String)
    (hreg : alookup registry city = some cd)
    (hhit : alookup cache city = some val) :
    ((collectForecasts registry gf cache (city :: rest)).calls
        = (collectForecasts registry gf cache rest).calls ∧
      (collectForecasts registry gf cache (city :: rest)).parts
        = val :: (collectForecasts registry gf cache rest).parts) ∧
    ((gf cd).isOk = true →
      (sendWeatherEmails registry gf pub [(e1, [city]), (e2, [city])]).calls
        = [city]) ∧
    ((gf cd).isOk = false →
      (sendWeatherEmails registry gf pub [(e1, [city]), (e2, [city])]).calls
        = [city, city]) := by
  refine ⟨?_, ?_, ?_⟩
  · simp [collectForecasts, hhit]
  · intro h
    rcases hgf : gf cd with e | fa
    · rw [hgf] at h; simp [isOk_error] at h
    · simp [sendWeatherEmails, sendLoop, collectForecasts, alookup, hreg, hgf,
        ainsert, apply_ite, ite_self]
  · intro h
    rcases hgf : gf cd with e | fa
    · simp [sendWeatherEmails, sendLoop, collectForecasts, alookup, hreg, hgf]
    · rw [hgf] at h; simp [isOk_ok] at h

/-- A forecast provider that always fails. -/
def gfNever : CityType → Except Unit (List ForecastEntry) := fun _ => .error ()

/-- A publisher that accepts everything. -/
def pubAlways : EmailTask → Bool := fun _ => true

/-- C4, witness: a cache hit for A adds no provider call; two users
subscribed to A with a succeeding fetch cause one call; with a failing
fetch, two calls. -/
theorem forecastCache_memoizes_successes_witness :
    ((collectForecasts regA gfAOnly [("A", [])] ["A"]).calls
        = (collectForecasts regA gfAOnly [("A", [])] []).calls) ∧
    ((sendWeatherEmails regA gfAOnly pubAlways
        [("u1", ["A"]), ("u2", ["A"])]).calls = ["A"]) ∧
    ((sendWeatherEmails regA gfNever pubAlways
        [("u1", ["A"]), ("u2", ["A"])]).calls = ["A", "A"]) :=
  have h1 := forecastCache_memoizes_successes regA gfAOnly pubAlways
    "u1" "u2" "A" cityA [("A", [])] [] [] rfl rfl
  have h2 := forecastCache_memoizes_successes regA gfNever pubAlways
    "u1" "u2" "A" cityA [("A", [])] [] [] rfl rfl
  ⟨h1.1.1, h1.2.1 rfl, h2.2.2 rfl⟩

/-! ## C6 — digest body composition (`createEmailBody`) -/

/-- A registry in which only city B is registered (the C6 input). -/
def regBOnly : Registry := [("B", cityB)]

/-- One concrete forecast point for city B. -/
def entryB : ForecastEntry := ⟨3600, 10, 9, 1000, 5, ["clear sky"]⟩

/-- A forecast provider succeeding exactly for city B, with `[entryB]`. -/
def gfBOnly : CityType → Except Unit (List ForecastEntry) := fun c =>
  if c.name = "B" then .ok [entryB] else .error ()

/-- C6, failing input: a user subscribed to `["A", "B"]` where `A` is not
registered (so it is skipped) and `B`'s fetch succeeds.  `createEmailBody`
pairs the *dense* `forecastParts` with the *sparse* subscription list by
index (`cities[i]`, part_001 lines 378-384), so the single obtained
series — `B`'s — is rendered under the header `A`: the published body is
`citySection "A" [entryB]`, a section headed by a city whose forecast
was never fetched, with `B`'s entries below it.  The fixed subject and
the `daily_forecast` type tag of the task are as claimed. -/
theorem createEmailBody_misaligned_header :
    alookup regBOnly "A" = none ∧
    gfBOnly cityB = .ok [entryB] ∧
    (sendWeatherEmails regBOnly gfBOnly pubAlways [("user@x", ["A", "B"])]).published
      = [dailyTask "user@x"
          (emailBodyHead ++ citySection "A" [entryB] ++ emailBodyTail)] ∧
    (dailyTask "user@x" (createEmailBody [[entryB]] ["A", "B"])).Subject
      = "Ежедневный прогноз погоды" ∧
    (dailyTask "user@x" (createEmailBody [[entryB]] ["A", "B"])).TypeTag
      = "daily_forecast" := by
  refine ⟨rfl, rfl, ?_, rfl, rfl⟩
  have h := createEmailBody_single "A" "B" [entryB]
  rw [← h]
  rfl

/-! ## C7 — forecast truncation safety (`getWeatherForecast`) -/

/-- The zero-valued forecast point. -/
def fEntryZero : ForecastEntry := ⟨0, 0, 0, 0, 0, []⟩

/-- C7, failing input: a decoded provider response with `Cnt = 5` and a
5-point list passes the `Cnt == 0 || len(List) == 0` guard, and the
slice expression `forecastResp.List[0:24]` is then out of bounds — a
run-time panic, not an error return.  A 24-point (or longer) list yields
exactly the first 24 points, and the error paths return the empty
series with an error, as the claim says for those cases. -/
theorem getWeatherForecast_short_list_out_of_bounds :
    getWeatherForecast (.ok ⟨5, List.replicate 5 fEntryZero⟩) = .panicked ∧
    getWeatherForecast (.ok ⟨24, List.replicate 24 fEntryZero⟩)
      = .ok (List.replicate 24 fEntryZero) ∧
    getWeatherForecast (.error ()) = .err [] :=
  ⟨rfl, rfl, rfl⟩

/-! ## C8 — `NotificationTask` wire round-trip -/

/-- A task whose `Meta` is the *empty non-nil* map. -/
def taskEmptyMeta : EmailTask := ⟨"a@b.c", "s", "b", "", some []⟩

/-- C8, counterexample: a task carrying an empty non-nil `Meta` map is
not reproduced identically: `omitempty` drops the empty map from the
wire form, and decoding the wire form yields a nil (`none`) map. -/
theorem emailTask_roundtrip_cex :
    decodeEmailTask (encodeEmailTask taskEmptyMeta)
      = .ok { taskEmptyMeta with Meta := none } ∧
    ({ taskEmptyMeta with Meta := none } : EmailTask) ≠ taskEmptyMeta := by
  refine ⟨rfl, ?_⟩
  intro h
  exact Option.noConfusion (congrArg EmailTask.Meta h)

/-- C8, amended: for every task whose `Meta` is not the empty non-nil
map, encoding to the JSON wire form and decoding back reproduces every
field identically — including an absent (`""`) `type` and an absent
(nil) `meta`, which are omitted from the wire form and decode back to
absent.  (A task with an empty non-nil `Meta` decodes back with `Meta`
nil instead.) -/
theorem emailTask_roundtrip (t : EmailTask) (h : t.Meta ≠ some []) :
    decodeEmailTask (encodeEmailTask t) = .ok t := by
  obtain ⟨tTo, tSubject, tBody, tType, tMeta⟩ := t
  rcases tMeta with _ | m
  · by_cases hty : tType = "" <;>
      simp [encodeEmailTask, decodeEmailTask, jStrField, jMetaField, alookup, hty]
  · rcases m with _ | ⟨kv, m'⟩
    · simp at h
    · by_cases hty : tType = "" <;>
        simp [encodeEmailTask, decodeEmailTask, jStrField, jMetaField, alookup, hty]

/-- A fully-populated task (type tag absent, metadata present). -/
def taskWithMeta : EmailTask :=
  ⟨"a@b.c", "hello", "<p>hi</p>", "", some [("sent_by", .jstr "weather_service")]⟩

/-- C8, witness: the round-trip at a task with non-empty metadata and at
a task with both `type` and `meta` absent. -/
theorem emailTask_roundtrip_witness :
    decodeEmailTask (encodeEmailTask taskWithMeta) = .ok taskWithMeta ∧
    decodeEmailTask (encodeEmailTask ⟨"x@y", "s", "b", "", none⟩)
      = .ok ⟨"x@y", "s", "b", "", none⟩ :=
  ⟨emailTask_roundtrip taskWithMeta (by simp [taskWithMeta]),
    emailTask_roundtrip ⟨"x@y", "s", "b", "", none⟩ (by simp)⟩

/-! ## C9 — synchronization of the shared registry -/

/-- C9: the registry is accessed with **no** synchronization.  `mapMuOps`
— the operations the package ever performs on the declared `mapMu` — is
empty, while a dispatch tick reads `mapOfCities` (the `reads` trace) and
a request-triggered registration writes it (the registry changes), and
the two run on concurrent goroutines (`startPeriodicEmailSending` vs. the
HTTP handler).  A concurrent lookup can therefore observe a half-written
registry; Go's runtime may abort on the concurrent map read/write. -/
theorem registry_unsynchronized_access :
    mapMuOps = [] ∧
    (sendWeatherEmails regBOnly gfBOnly pubAlways
        [("user@x", ["A", "B"])]).reads = ["A", "B"] ∧
    (addCitiesToDB geoTokyoOslo [] true true ["Tokyo"]).registry
      = [("Tokyo", cTokyo)] :=
  ⟨rfl, rfl, rfl⟩

end WeatherService
